import Mathlib

/-!
Verification development for the purpleMist infrastructure repository.

The repository declares AWS infrastructure (VPC, security groups, ALB, ECS
Fargate services, RDS, ECR, EFS) with the AWS CDK.  Several revisions of the
same stacks are present; each is embedded here as concrete data transcribed
from its source file, and the specified properties are settled as theorems
over those transcriptions.

Naming of the revisions:
  * `baseVpcInfrastructure...`  — lib/base-Infrastructure-stack.ts (BaseVPCInfrastructure)
  * `ecsStack...`               — lib/elastic-container-stack.ts (EcsStack)
  * `databaseStack...`          — lib/postgres-db-stack.ts (DatabaseStack)
  * `ecrStack...`               — lib/image-repository-stack.ts (EcrStack)
  * `part001...` .. `part009...` — the unnamed revision files; part_007 holds two
    concatenated EcsStack revisions, called `part007a` and `part007b`.
-/

namespace PurpleMist

/-! ## Security-group model

An ingress rule names a source peer: either any IPv4 address (`anyIpv4`) or a
security group referenced by its construct id (for groups received through a
props struct, the props field name).  Construction of a stack is a sequence of
events: security-group declarations and `addIngressRule` calls, in the textual
order of the constructor body. -/

/-- A source peer of an ingress rule: `ec2.Peer.anyIpv4()` or
`ec2.Peer.securityGroupId(...)` of a named group. -/
inductive Peer where
  | anyIpv4 : Peer
  | sg : String → Peer
deriving DecidableEq, Repr

/-- One construction event of a revision: declaring a security group, or adding
an ingress rule `target.addIngressRule(source, port)`. -/
inductive SgEvent where
  | declGroup : String → SgEvent
  | addIngress : (target : String) → (source : Peer) → (port : Nat) → SgEvent
deriving DecidableEq, Repr

/-- The directed permission edges of a revision: `(target, source, port)`
triples collected from its `addIngressRule` calls. -/
def ingressEdges (events : List SgEvent) : List (String × Peer × Nat) :=
  events.filterMap fun e =>
    match e with
    | .addIngress t s p => some (t, s, p)
    | _ => none

/-- `noForwardIngressRefAux declared events` checks that every ingress rule in
`events` whose source is a security group references a group already in
`declared` (the groups declared so far, scanning left to right). -/
def noForwardIngressRefAux : List String → List SgEvent → Bool
  | _, [] => true
  | declared, .declGroup g :: rest => noForwardIngressRefAux (g :: declared) rest
  | declared, .addIngress _ (.sg g) _ :: rest =>
      declared.contains g && noForwardIngressRefAux declared rest
  | declared, .addIngress _ .anyIpv4 _ :: rest => noForwardIngressRefAux declared rest

/-- No ingress rule of the event sequence references a security group that is
only declared later in the construction sequence. -/
def noForwardIngressRef (events : List SgEvent) : Bool :=
  noForwardIngressRefAux [] events

/-! ### Network-stack revisions (security-group portion) -/

/-- lib/base-Infrastructure-stack.ts: three groups, then the three ingress
rules (ALB from anyIPv4 on 80, ECS from ALB on 8080, DB from ECS on 5432). -/
def baseVpcInfrastructureSgEvents : List SgEvent := [
  .declGroup "DBSecurityGroup",
  .declGroup "ECSSecurityGroup",
  .declGroup "AlbSecurityGroup",
  .addIngress "AlbSecurityGroup" .anyIpv4 80,
  .addIngress "ECSSecurityGroup" (.sg "AlbSecurityGroup") 8080,
  .addIngress "DBSecurityGroup" (.sg "ECSSecurityGroup") 5432]

/-- src/unnamed/part_001 (BaselineVPCInfrastructure): four groups including the
Bedrock gateway group, then four ingress rules. -/
def part001SgEvents : List SgEvent := [
  .declGroup "DBSecurityGroup",
  .declGroup "ECSSecurityGroup",
  .declGroup "AlbSecurityGroup",
  .declGroup "BedrockGatewaySecurityGroup",
  .addIngress "AlbSecurityGroup" .anyIpv4 80,
  .addIngress "ECSSecurityGroup" (.sg "AlbSecurityGroup") 8080,
  .addIngress "BedrockGatewaySecurityGroup" (.sg "ECSSecurityGroup") 80,
  .addIngress "DBSecurityGroup" (.sg "ECSSecurityGroup") 5432]

/-- src/unnamed/part_004 (BaselineVPCInfrastructure, later revision): the same
group and rule sequence as part_001. -/
def part004SgEvents : List SgEvent := [
  .declGroup "DBSecurityGroup",
  .declGroup "ECSSecurityGroup",
  .declGroup "AlbSecurityGroup",
  .declGroup "BedrockGatewaySecurityGroup",
  .addIngress "AlbSecurityGroup" .anyIpv4 80,
  .addIngress "ECSSecurityGroup" (.sg "AlbSecurityGroup") 8080,
  .addIngress "BedrockGatewaySecurityGroup" (.sg "ECSSecurityGroup") 80,
  .addIngress "DBSecurityGroup" (.sg "ECSSecurityGroup") 5432]

/-! ### Monolithic revisions (security-group portion) -/

/-- src/unnamed/part_002 (BaselineInfrastructure monolith): DB group, ECS group,
DB-from-ECS rule, ALB group, ALB-from-anyIPv4 rule, and (after the service is
created) the ECS-from-ALB rule. -/
def part002SgEvents : List SgEvent := [
  .declGroup "DBSecurityGroup",
  .declGroup "ECSSecurityGroup",
  .addIngress "DBSecurityGroup" (.sg "ECSSecurityGroup") 5432,
  .declGroup "AlbSecurityGroup",
  .addIngress "AlbSecurityGroup" .anyIpv4 80,
  .addIngress "ECSSecurityGroup" (.sg "AlbSecurityGroup") 8080]

/-- src/unnamed/part_003 (BaselineInfrastructure monolith, later revision):
three groups first, then the three rules. -/
def part003SgEvents : List SgEvent := [
  .declGroup "DBSecurityGroup",
  .declGroup "ECSSecurityGroup",
  .declGroup "AlbSecurityGroup",
  .addIngress "DBSecurityGroup" (.sg "ECSSecurityGroup") 5432,
  .addIngress "AlbSecurityGroup" .anyIpv4 80,
  .addIngress "ECSSecurityGroup" (.sg "AlbSecurityGroup") 8080]

/-! ### ECS-stack revisions (security-group portion)

The ECS stacks receive `ecsSecurityGroup` and `albSecurityGroup` (part_007b
additionally `bedrockGatewaySecurityGroup`) through their props struct; these
inputs exist before the constructor body runs and are transcribed as leading
declarations under their props field names. -/

/-- lib/elastic-container-stack.ts: props groups, then the EFS group and its
NFS ingress rule from the ECS group. -/
def ecsStackSgEvents : List SgEvent := [
  .declGroup "ecsSecurityGroup",
  .declGroup "albSecurityGroup",
  .declGroup "EFSSecurityGroup",
  .addIngress "EFSSecurityGroup" (.sg "ecsSecurityGroup") 2049]

/-- src/unnamed/part_006 (EcsStack with EFS, no mount-target marker): same
security-group sequence as the lib revision. -/
def part006SgEvents : List SgEvent := [
  .declGroup "ecsSecurityGroup",
  .declGroup "albSecurityGroup",
  .declGroup "EFSSecurityGroup",
  .addIngress "EFSSecurityGroup" (.sg "ecsSecurityGroup") 2049]

/-- src/unnamed/part_007, first EcsStack revision: the EFS group is declared at
lines 78-83 and its ingress rule follows at lines 86-90.  (The CfnMountTarget
loop at lines 56-62 references the EFS group before its declaration, but that
reference is a mount-target attachment, not an ingress rule, so it contributes
no `addIngress` event.) -/
def part007aSgEvents : List SgEvent := [
  .declGroup "ecsSecurityGroup",
  .declGroup "albSecurityGroup",
  .declGroup "EFSSecurityGroup",
  .addIngress "EFSSecurityGroup" (.sg "ecsSecurityGroup") 2049]

/-- src/unnamed/part_007, second EcsStack revision (with Bedrock gateway
service): props groups, then the EFS group and its NFS rule. -/
def part007bSgEvents : List SgEvent := [
  .declGroup "ecsSecurityGroup",
  .declGroup "albSecurityGroup",
  .declGroup "bedrockGatewaySecurityGroup",
  .declGroup "EFSSecurityGroup",
  .addIngress "EFSSecurityGroup" (.sg "ecsSecurityGroup") 2049]

/-- Every revision's security-group event sequence, for properties quantified
over all revisions.  part_005, part_008 and part_009 declare no security groups
and add no ingress rules of their own (they only reference props groups in
service definitions), so they contribute no events. -/
def allSgEventLists : List (List SgEvent) := [
  baseVpcInfrastructureSgEvents,
  part001SgEvents,
  part004SgEvents,
  part002SgEvents,
  part003SgEvents,
  ecsStackSgEvents,
  part006SgEvents,
  part007aSgEvents,
  part007bSgEvents]

/-! ### Expected security perimeter (from the spec) -/

/-- The perimeter edges the spec requires of a network stack without a gateway
group: ALB admits HTTP 80 from any IPv4, ECS admits 8080 from ALB, DB admits
5432 from ECS. -/
def expectedPerimeterNoGateway : List (String × Peer × Nat) := [
  ("AlbSecurityGroup", Peer.anyIpv4, 80),
  ("ECSSecurityGroup", Peer.sg "AlbSecurityGroup", 8080),
  ("DBSecurityGroup", Peer.sg "ECSSecurityGroup", 5432)]

/-- The perimeter edges the spec requires of a network stack with a gateway
group: the no-gateway edges plus ECS into the gateway group on port 80. -/
def expectedPerimeterWithGateway : List (String × Peer × Nat) := [
  ("AlbSecurityGroup", Peer.anyIpv4, 80),
  ("ECSSecurityGroup", Peer.sg "AlbSecurityGroup", 8080),
  ("BedrockGatewaySecurityGroup", Peer.sg "ECSSecurityGroup", 80),
  ("DBSecurityGroup", Peer.sg "ECSSecurityGroup", 5432)]

/-- The ingress rules of the DB security group in an event sequence. -/
def dbIngressSources (events : List SgEvent) : List Peer :=
  (ingressEdges events).filterMap fun e =>
    if e.1 = "DBSecurityGroup" then some e.2.1 else none

/-! ## Declared dependency graph of the ECS-stack revisions

Nodes are construct ids.  An edge `(a, b)` states that construct `a` depends on
construct `b`: either `a`'s declaration references an attribute of `b`, or the
source calls `a.node.addDependency(b)`.  Mount-target creation is represented
by the construct the revision declares for it: the explicit `CfnMountTarget`
resources where present (part_007a), the implicit mount-target children the
`efs.FileSystem` construct creates in the selected subnets otherwise, and the
`EfsMountTargetCheck` SSM marker where the source declares that marker as its
mount-target readiness proxy (lib revision and part_007b). -/

/-- One fold pass over the edges, extending the set of constructs the start
node transitively depends on. -/
def reachStep (edges : List (String × String)) (reached : List String) : List String :=
  edges.foldl
    (fun acc e => if acc.contains e.1 && !acc.contains e.2 then e.2 :: acc else acc)
    reached

/-- Iterate `reachStep` a fixed number of times. -/
def reachIter : Nat → List (String × String) → List String → List String
  | 0, _, reached => reached
  | n + 1, edges, reached => reachIter n edges (reachStep edges reached)

/-- `reachable edges a b` holds when the dependency graph contains a path from
`a` to `b`, i.e. `a` transitively depends on `b`.  `edges.length + 1` passes
suffice since every simple path has at most `edges.length` edges. -/
def reachable (edges : List (String × String)) (a b : String) : Bool :=
  (reachIter (edges.length + 1) edges [a]).contains b

/-- An ECS-stack revision's EFS wiring: whether the OpenWebUI container mounts
the shared filesystem, which constructs stand for mount-target creation, and
the declared dependency edges among the stack's constructs. -/
structure EcsRevisionDeps where
  revision : String
  mountsFileSystem : Bool
  mountTargetNodes : List String
  depEdges : List (String × String)
deriving DecidableEq, Repr

/-- The service has a declared dependency path to mount-target creation: some
mount-target construct is reachable from `OpenWebUIService` along the declared
edges. -/
def mountTargetDependencyPath (r : EcsRevisionDeps) : Bool :=
  r.mountTargetNodes.any fun m => reachable r.depEdges "OpenWebUIService" m

/-- lib/elastic-container-stack.ts: the EFS-mounting service, the SSM marker
`EfsMountTargetCheck` (the source's proxy for mount-target creation, see the
comment at lines 88-92), and the explicit
`openWebUIService.node.addDependency(mountTargetParam)` edge at line 205. -/
def ecsStackDeps : EcsRevisionDeps :=
  { revision := "lib/elastic-container-stack.ts"
    mountsFileSystem := true
    mountTargetNodes := ["EfsMountTargetCheck"]
    depEdges := [
      ("EfsMountTargetCheck", "OpenWebUIEfs"),
      ("AccessPoint", "OpenWebUIEfs"),
      ("OpenWebUITask", "OpenWebUIEfs"),
      ("OpenWebUITask", "AccessPoint"),
      ("OpenWebUIService", "OpenWebUICluster"),
      ("OpenWebUIService", "OpenWebUITask"),
      ("OpenWebUIService", "EfsMountTargetCheck")] }

/-- src/unnamed/part_006: the service mounts the filesystem, the implicit
mount targets are created by the `efs.FileSystem` construct, and no dependency
from the service towards them (or any marker) is declared. -/
def part006Deps : EcsRevisionDeps :=
  { revision := "src/unnamed/part_006"
    mountsFileSystem := true
    mountTargetNodes := ["OpenWebUIEfsMountTargets"]
    depEdges := [
      ("OpenWebUIEfsMountTargets", "OpenWebUIEfs"),
      ("OpenWebUIEfsMountTargets", "EFSSecurityGroup"),
      ("AccessPoint", "OpenWebUIEfs"),
      ("OpenWebUITask", "OpenWebUIEfs"),
      ("OpenWebUITask", "AccessPoint"),
      ("OpenWebUIService", "OpenWebUICluster"),
      ("OpenWebUIService", "OpenWebUITask")] }

/-- src/unnamed/part_007, first EcsStack revision: explicit `CfnMountTarget`
resources `EFSMountTarget0..2`, no dependency from the service towards them. -/
def part007aDeps : EcsRevisionDeps :=
  { revision := "src/unnamed/part_007 (first EcsStack)"
    mountsFileSystem := true
    mountTargetNodes := ["EFSMountTarget0", "EFSMountTarget1", "EFSMountTarget2"]
    depEdges := [
      ("EFSMountTarget0", "OpenWebUIEfs"),
      ("EFSMountTarget0", "EFSSecurityGroup"),
      ("EFSMountTarget1", "OpenWebUIEfs"),
      ("EFSMountTarget1", "EFSSecurityGroup"),
      ("EFSMountTarget2", "OpenWebUIEfs"),
      ("EFSMountTarget2", "EFSSecurityGroup"),
      ("AccessPoint", "OpenWebUIEfs"),
      ("OpenWebUITask", "OpenWebUIEfs"),
      ("OpenWebUITask", "AccessPoint"),
      ("OpenWebUIService", "OpenWebUICluster"),
      ("OpenWebUIService", "OpenWebUITask")] }

/-- src/unnamed/part_007, second EcsStack revision: the SSM marker and the
`openWebUIService.node.addDependency(mountTargetParam)` edge (line 412). -/
def part007bDeps : EcsRevisionDeps :=
  { revision := "src/unnamed/part_007 (second EcsStack)"
    mountsFileSystem := true
    mountTargetNodes := ["EfsMountTargetCheck"]
    depEdges := [
      ("EfsMountTargetCheck", "OpenWebUIEfs"),
      ("AccessPoint", "OpenWebUIEfs"),
      ("OpenWebUITask", "OpenWebUIEfs"),
      ("OpenWebUITask", "AccessPoint"),
      ("OpenWebUIService", "OpenWebUICluster"),
      ("OpenWebUIService", "OpenWebUITask"),
      ("OpenWebUIService", "EfsMountTargetCheck"),
      ("BedrockAccessGatewayService", "OpenWebUICluster"),
      ("BedrockAccessGatewayService", "BedrockAccessGatewayTaskDef")] }

/-- src/unnamed/part_005: no EFS at all; the service only depends on its
cluster and task definition. -/
def part005Deps : EcsRevisionDeps :=
  { revision := "src/unnamed/part_005"
    mountsFileSystem := false
    mountTargetNodes := []
    depEdges := [
      ("OpenWebUIService", "OpenWebUICluster"),
      ("OpenWebUIService", "OpenWebUITask")] }

/-- src/unnamed/part_008: no EFS. -/
def part008Deps : EcsRevisionDeps :=
  { revision := "src/unnamed/part_008"
    mountsFileSystem := false
    mountTargetNodes := []
    depEdges := [
      ("OpenWebUIService", "OpenWebUICluster"),
      ("OpenWebUIService", "OpenWebUITask")] }

/-- src/unnamed/part_009: no EFS; two services (OpenWebUI and Ollama). -/
def part009Deps : EcsRevisionDeps :=
  { revision := "src/unnamed/part_009"
    mountsFileSystem := false
    mountTargetNodes := []
    depEdges := [
      ("OpenWebUIService", "OpenWebUICluster"),
      ("OpenWebUIService", "OpenWebUITask"),
      ("OllamaService", "OpenWebUICluster"),
      ("OllamaService", "OllamaTask")] }

/-- All ECS-stack revisions that declare a compute service. -/
def allEcsRevisionDeps : List EcsRevisionDeps := [
  ecsStackDeps, part006Deps, part007aDeps, part007bDeps,
  part005Deps, part008Deps, part009Deps]

/-! ## Cross-stack inputs (typed props structs)

Each consuming stack declares its required inputs as a TypeScript interface of
non-optional fields; passing a props object lacking a required field is
rejected by the type checker before `app.synth()` runs.  The interfaces are
transcribed as lists of required field names, and construction as a check that
every required field is provided. -/

/-- Required fields of `DatabaseStackProps` (lib/postgres-db-stack.ts, lines
5-8). -/
def databaseStackRequiredInputs : List String := ["vpc", "dbSecurityGroup"]

/-- Required fields of `EcsStackProps` (lib/elastic-container-stack.ts, lines
12-19). -/
def ecsStackRequiredInputs : List String :=
  ["vpc", "ecsSecurityGroup", "albSecurityGroup", "repository", "alb", "targetGroup"]

/-- The required inputs missing from the provided set. -/
def missingInputs (required provided : List String) : List String :=
  required.filter fun r => !provided.contains r

/-- Constructing a stack from a props struct: succeeds exactly when every
required input is provided; otherwise fails structurally, before any cloud
call, naming the missing fields. -/
def constructStack (required provided : List String) : Except String Unit :=
  match missingInputs required provided with
  | [] => Except.ok ()
  | missing => Except.error ("missing required inputs: " ++ String.intercalate ", " missing)

/-- The outputs of the network stack in the spec's example scenario. -/
def scenarioNetworkOutputs : List String := ["vpc", "albSecurityGroup", "ecsSecurityGroup"]

/-- The required inputs of the compute stack in the spec's example scenario. -/
def scenarioComputeRequired : List String := ["vpc", "ecsSecurityGroup"]

/-! ## Synthesis model

src/bin/main.ts builds a `cdk.App`, constructs `BaselineInfrastructure` (a
`BaseVPCInfrastructure` stack pinned to region us-west-2) and calls
`app.synth()`.  The constructor bodies call the CDK with constant arguments
only: no clock, randomness or other ambient run state is consulted anywhere in
the repository.  The embedding makes that explicit by threading a `RunEnv`
(the state that could differ between two runs) through synthesis; the
resource graph is rendered from the declarations alone. -/

/-- Ambient state that could differ between two synthesis runs: a process
seed and a wall-clock reading.  The source never reads either. -/
structure RunEnv where
  seed : Nat
  clock : Nat
deriving DecidableEq, Repr

/-- One declared resource of the rendered graph: its construct path inside the
stack and its resource type. -/
structure ResourceDecl where
  path : String
  resourceType : String
deriving DecidableEq, Repr

/-- A rendered stack: name, pinned region, and the declared resources. -/
structure RenderedStack where
  stackName : String
  region : String
  resources : List ResourceDecl
deriving DecidableEq, Repr

/-- The logical id of a resource: a deterministic function of the construct
path (non-alphanumeric characters dropped, as the CDK does before appending
its path hash). -/
def logicalId (r : ResourceDecl) : String :=
  String.mk (r.path.toList.filter fun c => c.isAlphanum)

/-- The constructs `BaseVPCInfrastructure` declares, in constructor order
(lib/base-Infrastructure-stack.ts). -/
def baseVpcInfrastructureResources : List ResourceDecl := [
  ⟨"InfraVpc", "AWS::EC2::VPC"⟩,
  ⟨"InfraVpc/EcrEndpoint", "AWS::EC2::VPCEndpoint"⟩,
  ⟨"InfraVpc/EcrDockerEndpoint", "AWS::EC2::VPCEndpoint"⟩,
  ⟨"InfraVpc/S3Endpoint", "AWS::EC2::VPCEndpoint"⟩,
  ⟨"InfraVpc/SecretsEndpoint", "AWS::EC2::VPCEndpoint"⟩,
  ⟨"InfraVpc/EcsEndpoint", "AWS::EC2::VPCEndpoint"⟩,
  ⟨"InfraVpc/EcsAgentEndpoint", "AWS::EC2::VPCEndpoint"⟩,
  ⟨"InfraVpc/EcsTelemetryEndpoint", "AWS::EC2::VPCEndpoint"⟩,
  ⟨"DBSecurityGroup", "AWS::EC2::SecurityGroup"⟩,
  ⟨"ECSSecurityGroup", "AWS::EC2::SecurityGroup"⟩,
  ⟨"AlbSecurityGroup", "AWS::EC2::SecurityGroup"⟩,
  ⟨"ECSSecurityGroup/from AlbSecurityGroup:8080", "AWS::EC2::SecurityGroupIngress"⟩,
  ⟨"DBSecurityGroup/from ECSSecurityGroup:5432", "AWS::EC2::SecurityGroupIngress"⟩]

/-- Synthesize the app declared in src/bin/main.ts: the `RunEnv` is received
but — exactly as in the source, which reads no ambient state — never
consulted, so the rendered graph is a function of the declared configuration
(the region string) alone. -/
def synthMainApp (_env : RunEnv) (region : String) : List RenderedStack :=
  [⟨"BaselineInfrastructure", region, baseVpcInfrastructureResources⟩]

/-- Byte-render a synthesized graph: one line per stack header and one line per
resource (logical id and type), concatenated in declaration order. -/
def renderGraph (stackList : List RenderedStack) : String :=
  String.intercalate "\x0a" <| stackList.flatMap fun s =>
    (s.stackName ++ " [" ++ s.region ++ "]") ::
      s.resources.map fun r => "  " ++ logicalId r ++ ": " ++ r.resourceType

/-! ## Declared resources: database, registry, filesystem, services -/

/-- The subnet tiers used by the revisions. -/
inductive SubnetTier where
  | publicTier : SubnetTier
  | privateWithEgress : SubnetTier
  | privateIsolated : SubnetTier
deriving DecidableEq, Repr

/-- The removal policies the source sets explicitly. -/
inductive RemovalPolicy where
  | destroy : RemovalPolicy
  | retain : RemovalPolicy
deriving DecidableEq, Repr

/-- A declared `rds.DatabaseInstance`: revision, subnet selection, attached
security groups (construct ids), the literal password passed through a
`credentials` prop if any (`none` means the prop is absent, so the CDK
delegates to a generated Secrets Manager secret), and the removal policy. -/
structure DatabaseInstanceDecl where
  revision : String
  subnetTier : SubnetTier
  securityGroups : List String
  credentialsLiteralPassword : Option String
  removalPolicy : Option RemovalPolicy
deriving DecidableEq, Repr

/-- lib/postgres-db-stack.ts, lines 17-35: isolated subnets, exactly the DB
security group from props, no `credentials` prop, DESTROY. -/
def databaseStackDbInstance : DatabaseInstanceDecl :=
  { revision := "lib/postgres-db-stack.ts"
    subnetTier := .privateIsolated
    securityGroups := ["DBSecurityGroup"]
    credentialsLiteralPassword := none
    removalPolicy := some .destroy }

/-- src/unnamed/part_002, lines 50-68. -/
def part002DbInstance : DatabaseInstanceDecl :=
  { revision := "src/unnamed/part_002"
    subnetTier := .privateIsolated
    securityGroups := ["DBSecurityGroup"]
    credentialsLiteralPassword := none
    removalPolicy := some .destroy }

/-- src/unnamed/part_003, lines 81-99. -/
def part003DbInstance : DatabaseInstanceDecl :=
  { revision := "src/unnamed/part_003"
    subnetTier := .privateIsolated
    securityGroups := ["DBSecurityGroup"]
    credentialsLiteralPassword := none
    removalPolicy := some .destroy }

/-- Every revision that declares a database instance. -/
def allDatabaseInstanceDecls : List DatabaseInstanceDecl :=
  [databaseStackDbInstance, part002DbInstance, part003DbInstance]

/-- A lifecycle rule of an ECR repository, retaining at most
`maxImageCount` images. -/
structure LifecycleRule where
  maxImageCount : Nat
deriving DecidableEq, Repr

/-- A declared `ecr.Repository`: revision, declared lifecycle rules and
removal policy. -/
structure EcrRepositoryDecl where
  revision : String
  lifecycleRules : List LifecycleRule
  removalPolicy : Option RemovalPolicy
deriving DecidableEq, Repr

/-- lib/image-repository-stack.ts, lines 10-21: one lifecycle rule with
`maxImageCount: 5`, DESTROY. -/
def ecrStackRepository : EcrRepositoryDecl :=
  { revision := "lib/image-repository-stack.ts"
    lifecycleRules := [⟨5⟩]
    removalPolicy := some .destroy }

/-- src/unnamed/part_002, lines 71-76: no `lifecycleRules` prop. -/
def part002EcrRepository : EcrRepositoryDecl :=
  { revision := "src/unnamed/part_002"
    lifecycleRules := []
    removalPolicy := some .destroy }

/-- src/unnamed/part_003, lines 102-107: no `lifecycleRules` prop. -/
def part003EcrRepository : EcrRepositoryDecl :=
  { revision := "src/unnamed/part_003"
    lifecycleRules := []
    removalPolicy := some .destroy }

/-- Every revision that declares the container image registry. -/
def allEcrRepositoryDecls : List EcrRepositoryDecl :=
  [ecrStackRepository, part002EcrRepository, part003EcrRepository]

/-- The registry declares a lifecycle policy retaining only the last `n`
images. -/
def declaresRetainLastN (d : EcrRepositoryDecl) (n : Nat) : Bool :=
  d.lifecycleRules.any fun rule => rule.maxImageCount = n

/-- A declared `efs.FileSystem`: revision and explicit removal policy
(`none` means the prop is absent and the CDK default, RETAIN, applies). -/
structure FileSystemDecl where
  revision : String
  removalPolicy : Option RemovalPolicy
deriving DecidableEq, Repr

/-- lib/elastic-container-stack.ts, lines 72-85: DESTROY. -/
def ecsStackFileSystem : FileSystemDecl :=
  { revision := "lib/elastic-container-stack.ts", removalPolicy := some .destroy }

/-- A declared `ecs.FargateService`: revision, construct id, subnet selection
and the `assignPublicIp` prop (`none` means absent; the CDK default is
false). -/
structure FargateServiceDecl where
  revision : String
  serviceId : String
  subnetTier : SubnetTier
  assignPublicIp : Option Bool
deriving DecidableEq, Repr

/-- Every `ecs.FargateService` declared across the revisions, in source
order. -/
def allFargateServiceDecls : List FargateServiceDecl := [
  ⟨"src/unnamed/part_002", "OpenWebUIService", .privateWithEgress, some false⟩,
  ⟨"src/unnamed/part_003", "OpenWebUIService", .privateWithEgress, some false⟩,
  ⟨"src/unnamed/part_005", "OpenWebUIService", .privateWithEgress, none⟩,
  ⟨"src/unnamed/part_006", "OpenWebUIService", .privateWithEgress, none⟩,
  ⟨"src/unnamed/part_007 (first EcsStack)", "OpenWebUIService", .privateWithEgress, none⟩,
  ⟨"src/unnamed/part_007 (second EcsStack)", "OpenWebUIService", .privateWithEgress, none⟩,
  ⟨"src/unnamed/part_007 (second EcsStack)", "BedrockAccessGatewayService", .privateWithEgress, none⟩,
  ⟨"src/unnamed/part_008", "OpenWebUIService", .privateWithEgress, none⟩,
  ⟨"src/unnamed/part_009", "OpenWebUIService", .privateWithEgress, none⟩,
  ⟨"src/unnamed/part_009", "OllamaService", .privateWithEgress, none⟩,
  ⟨"lib/elastic-container-stack.ts", "OpenWebUIService", .privateWithEgress, none⟩]

/-- The service is only privately addressable: private-with-egress subnets and
no public IP (explicitly false, or absent and hence the false default). -/
def privatelyPlaced (s : FargateServiceDecl) : Bool :=
  s.subnetTier = SubnetTier.privateWithEgress && s.assignPublicIp.getD false = false

/-! ## Container environment of part_003 (plaintext secrets) -/

/-- The literal database password embedded in part_003's connection string
(src/unnamed/part_003, line 208). -/
def part003DbLiteralPassword : String := "=9nKAy=xNJpGycGv3WM7WHnAOONcNU"

/-- The plaintext `DATABASE_URL` value of part_003's container definition:
a connection string embedding the literal password. -/
def part003DatabaseUrl : String :=
  "postgresql://postgres:" ++ part003DbLiteralPassword ++
    "@openwebui-db.ce0twoub7pwu.us-west-2.rds.amazonaws.com:5432/openwebui_db"

/-- The plaintext `environment` map of part_003's OpenWebUI container
definition (src/unnamed/part_003, lines 202-216; the `secrets` map is separate
and secret-store mediated). -/
def part003ContainerEnvironment : List (String × String) := [
  ("WEBUI_SECRET_KEY", "123456"),
  ("DEBUG", "true"),
  ("DATABASE_TYPE", "postgres"),
  ("DATABASE_URL", part003DatabaseUrl)]

/-- The plaintext `environment` map of the lib revision's OpenWebUI container
definition (lib/elastic-container-stack.ts, lines 160-172). -/
def ecsStackContainerEnvironment : List (String × String) := [
  ("WEBUI_SECRET_KEY", "123456"),
  ("DEBUG", "true"),
  ("DATABASE_TYPE", "sqlite"),
  ("DATABASE_PATH", "/app/backend/data/webui.db")]

/-- A database instance is placed as the spec requires: isolated-tier subnets,
exactly the DB security group, and no literal password (credentials left to
the generated secret). -/
def dbInstanceWellPlaced (d : DatabaseInstanceDecl) : Bool :=
  d.subnetTier = SubnetTier.privateIsolated
    && d.securityGroups = ["DBSecurityGroup"]
    && d.credentialsLiteralPassword = none

/-! ## Theorems -/

set_option maxRecDepth 16384 in
/-- C1: the claim says every revision whose compute service mounts the shared
filesystem declares a dependency path from mount-target creation to the
service.  The code violates it: src/unnamed/part_006 mounts the filesystem
into OpenWebUIService yet declares no dependency towards mount-target
creation, so the universally quantified statement evaluates to false; the lib
revision, by contrast, does declare the path through its EfsMountTargetCheck
marker. -/
theorem c1_part006_mounts_efs_without_mount_target_dependency :
    (allEcsRevisionDeps.all fun r =>
        !r.mountsFileSystem || mountTargetDependencyPath r) = false
      ∧ part006Deps ∈ allEcsRevisionDeps
      ∧ part006Deps.mountsFileSystem = true
      ∧ mountTargetDependencyPath part006Deps = false
      ∧ mountTargetDependencyPath ecsStackDeps = true := by
  decide

/-- C2: consuming stacks declare their required cross-stack inputs as typed
props structs, and construction fails structurally (before any cloud call)
exactly when a required input is absent: the spec's scenario composes, the
scenario without ecsSecurityGroup fails, complete inputs construct both
DatabaseStack and EcsStack, and dropping any single required input of either
stack fails. -/
theorem c2_missing_required_input_fails_structurally :
    (constructStack scenarioComputeRequired scenarioNetworkOutputs).isOk = true
    ∧ (constructStack scenarioComputeRequired
        (scenarioNetworkOutputs.erase "ecsSecurityGroup")).isOk = false
    ∧ (constructStack databaseStackRequiredInputs databaseStackRequiredInputs).isOk = true
    ∧ (constructStack ecsStackRequiredInputs ecsStackRequiredInputs).isOk = true
    ∧ (databaseStackRequiredInputs.all fun r =>
        !(constructStack databaseStackRequiredInputs
            (databaseStackRequiredInputs.erase r)).isOk) = true
    ∧ (ecsStackRequiredInputs.all fun r =>
        !(constructStack ecsStackRequiredInputs
            (ecsStackRequiredInputs.erase r)).isOk) = true := by
  decide

/-- C3: synthesis is a deterministic function of the declared configuration:
whatever ambient run state two synthesis runs start from, they produce the
same stacks, the same logical ids and a byte-identical rendered graph. -/
theorem c3_synthesis_deterministic (env1 env2 : RunEnv) (region : String) :
    synthMainApp env1 region = synthMainApp env2 region
    ∧ renderGraph (synthMainApp env1 region) = renderGraph (synthMainApp env2 region)
    ∧ (synthMainApp env1 region).flatMap (fun s => s.resources.map logicalId)
        = (synthMainApp env2 region).flatMap (fun s => s.resources.map logicalId) :=
  ⟨rfl, rfl, rfl⟩

/-- Witness for C3 at two concrete, distinct run environments. -/
theorem c3_synthesis_deterministic_witness :
    synthMainApp ⟨0, 0⟩ "us-west-2" = synthMainApp ⟨37, 123456⟩ "us-west-2"
    ∧ renderGraph (synthMainApp ⟨0, 0⟩ "us-west-2")
        = renderGraph (synthMainApp ⟨37, 123456⟩ "us-west-2") :=
  ⟨(c3_synthesis_deterministic ⟨0, 0⟩ ⟨37, 123456⟩ "us-west-2").1,
   (c3_synthesis_deterministic ⟨0, 0⟩ ⟨37, 123456⟩ "us-west-2").2.1⟩

/-- C4: in every revision, every security-group ingress rule references a
source group (or CIDR) declared earlier in the construction sequence — no
ingress rule forward-references a group declared later. -/
theorem c4_no_forward_ingress_reference :
    allSgEventLists.all noForwardIngressRef = true := by
  decide

/-- C5: each network-stack revision declares exactly the perimeter edges the
spec names — ALB admits HTTP 80 from any IPv4, ECS admits 8080 from ALB, DB
admits 5432 from ECS, and (where the gateway group exists) the gateway admits
80 from ECS — and the DB group admits ingress from no source other than the
ECS group. -/
theorem c5_security_perimeter_exact :
    ingressEdges baseVpcInfrastructureSgEvents = expectedPerimeterNoGateway
    ∧ ingressEdges part001SgEvents = expectedPerimeterWithGateway
    ∧ ingressEdges part004SgEvents = expectedPerimeterWithGateway
    ∧ dbIngressSources baseVpcInfrastructureSgEvents = [Peer.sg "ECSSecurityGroup"]
    ∧ dbIngressSources part001SgEvents = [Peer.sg "ECSSecurityGroup"]
    ∧ dbIngressSources part004SgEvents = [Peer.sg "ECSSecurityGroup"] := by
  decide

/-- C6: every revision that declares a database instance places it in
isolated-tier subnets, attaches exactly the DB security group, and passes no
literal password (credentials are delegated to the generated secret-store
secret, which the revisions then read through dbInstance.secret). -/
theorem c6_database_isolated_single_sg_secret_credentials :
    allDatabaseInstanceDecls.all dbInstanceWellPlaced = true := by
  decide

/-- C7 counterexample: not every revision's registry declares a lifecycle
policy retaining the last 5 images — the part_002 repository declares no
lifecycle rule at all. -/
theorem c7_counterexample_part002_no_lifecycle_rule :
    (allEcrRepositoryDecls.all fun d => declaresRetainLastN d 5) = false
    ∧ part002EcrRepository ∈ allEcrRepositoryDecls
    ∧ part002EcrRepository.lifecycleRules = [] := by
  decide

/-- C7 (amended): the dedicated registry-stack revision declares exactly one
lifecycle rule retaining only the last 5 images, while the monolithic
revisions part_002 and part_003 declare the repository with no lifecycle
rule. -/
theorem c7_lifecycle_policy_by_revision :
    ecrStackRepository.lifecycleRules = [⟨5⟩]
    ∧ declaresRetainLastN ecrStackRepository 5 = true
    ∧ part002EcrRepository.lifecycleRules = []
    ∧ part003EcrRepository.lifecycleRules = [] := by
  decide

/-- C8: part_003's rendered container definition carries hard-coded secret
values in its plaintext environment map — a literal WEBUI_SECRET_KEY and a
database connection string embedding the literal password — and the lib
revision repeats the literal WEBUI_SECRET_KEY. -/
theorem c8_plaintext_secrets_in_environment :
    ("WEBUI_SECRET_KEY", "123456") ∈ part003ContainerEnvironment
    ∧ ("DATABASE_URL", part003DatabaseUrl) ∈ part003ContainerEnvironment
    ∧ part003DatabaseUrl =
        "postgresql://postgres:" ++ part003DbLiteralPassword ++
          "@openwebui-db.ce0twoub7pwu.us-west-2.rds.amazonaws.com:5432/openwebui_db"
    ∧ ("WEBUI_SECRET_KEY", "123456") ∈ ecsStackContainerEnvironment := by
  decide

/-- C9: every Fargate service declared in any revision is placed in
private-with-egress subnets and never assigned a public IP (assignPublicIp is
explicitly false or left at its false default). -/
theorem c9_services_private_no_public_ip :
    allFargateServiceDecls.all privatelyPlaced = true := by
  decide

/-- C10: the stateful resources of the cited revisions — the image registry,
the database instance and the shared filesystem — all carry an explicit
DESTROY removal policy. -/
theorem c10_stateful_resources_destroy :
    ecrStackRepository.removalPolicy = some RemovalPolicy.destroy
    ∧ databaseStackDbInstance.removalPolicy = some RemovalPolicy.destroy
    ∧ ecsStackFileSystem.removalPolicy = some RemovalPolicy.destroy := by
  decide

end PurpleMist
